import Mathlib

/-!
Verification of the Account REST service (service/routes.py) against its
specification. The route handlers are embedded shallowly: the persisted
state is a list of accounts threaded through each handler, HTTP responses
are explicit records, and the JSON request body is an `AccountPayload` of
optional field values. The Account model class (service/models.py) is not
part of the sources; its operations are modelled from the spec where
marked.
-/

namespace AcctSvc

/-- A JSON scalar that can appear as an Account field value in a request
body: a string or a number (the spec's example sends a numeric
phone_number). -/
inductive JField where
  | jstr : String → JField
  | jnum : Int → JField
deriving DecidableEq

/-- Coercion of a JSON scalar to its string representation (the spec:
numeric values accepted on input are coerced to string representation). -/
def JField.toStr : JField → String
  | .jstr s => s
  | .jnum n => toString n

/-- A JSON request body for an Account: each field optionally present. -/
structure AccountPayload where
  name : Option JField
  email : Option JField
  address : Option JField
  phone_number : Option JField
  date_joined : Option JField
deriving DecidableEq

/-- The fields of a persisted Account other than its id, all stored as
strings (dates as ISO strings). -/
structure AccountFields where
  name : String
  email : String
  address : String
  phone_number : String
  date_joined : String
deriving DecidableEq

/-- A persisted Account row: surrogate id plus fields. -/
structure Account where
  id : Nat
  fields : AccountFields
deriving DecidableEq

/-- The persisted state: the table of Account rows. -/
abbrev Store := List Account

/-- Modelled from the spec: `Account.deserialize` (service/models.py is
not under src/). The required fields name, email, address and
phone_number must be present, otherwise a validation error is raised
(surfaced as HTTP 400); values are taken as their string representation
(the spec states the numeric-to-string coercion for phone_number);
date_joined defaults to the creation date `today` when absent. -/
def deserialize (p : AccountPayload) (today : String) : Except Unit AccountFields :=
  match p.name, p.email, p.address, p.phone_number with
  | some n, some e, some a, some ph =>
      Except.ok
        ⟨n.toStr, e.toStr, a.toStr, ph.toStr,
          (match p.date_joined with
           | some d => d.toStr
           | none => today)⟩
  | _, _, _, _ => Except.error ()

/-- The serialized JSON form of an Account: field names exactly as in the
spec, id included, date_joined as an ISO string. -/
structure SerializedAccount where
  id : Nat
  name : String
  email : String
  address : String
  phone_number : String
  date_joined : String
deriving DecidableEq

/-- Modelled from the spec: `Account.serialize` (service/models.py is not
under src/): object to JSON with the field names of the data model. -/
def Account.serialize (a : Account) : SerializedAccount :=
  ⟨a.id, a.fields.name, a.fields.email, a.fields.address,
    a.fields.phone_number, a.fields.date_joined⟩

/-- Modelled from the spec: `Account.find` (service/models.py is not
under src/): single-row lookup by primary key. -/
def Account.find (db : Store) (id : Nat) : Option Account :=
  db.find? (fun a => a.id == id)

/-- The largest id present in the store (0 when empty). -/
def maxId (db : Store) : Nat :=
  db.foldr (fun a m => max a.id m) 0

/-- Modelled from the spec: the persistence layer assigns a fresh
positive surrogate id on creation. -/
def nextId (db : Store) : Nat := maxId db + 1

/-- Modelled from the spec: `Account.create` (service/models.py is not
under src/): assigns a new id and persists the row. -/
def Account.create (db : Store) (f : AccountFields) : Account × Store :=
  (⟨nextId db, f⟩, db ++ [⟨nextId db, f⟩])

/-- Modelled from the spec: `Account.update` (service/models.py is not
under src/): persists new field values for the row with the given id. -/
def Account.update (db : Store) (a : Account) : Store :=
  db.map (fun b => if b.id == a.id then a else b)

/-- Modelled from the spec: `Account.delete` (service/models.py is not
under src/): removes the row with the given id. -/
def Account.delete (db : Store) (id : Nat) : Store :=
  db.filter (fun a => a.id != id)

/-- The JSON body of an HTTP response from this service. -/
inductive Body where
  | empty
  | obj : SerializedAccount → Body
  | arr : List SerializedAccount → Body
  | statusOk
  | meta : String → String → Body
deriving DecidableEq

/-- An HTTP response: status code, JSON body, the human-readable error
message attached via abort (none when abort gets no description and the
framework default applies, which names no id), and the Location header
when set. -/
structure Response where
  status : Nat
  body : Body
  message : Option String
  location : Option String
deriving DecidableEq

/-- routes.py lines 16-19: the health endpoint. -/
def health (db : Store) : Response × Store :=
  (⟨200, Body.statusOk, none, none⟩, db)

/-- routes.py lines 25-35: the index endpoint with fixed service
metadata. -/
def index (db : Store) : Response × Store :=
  (⟨200, Body.meta "Account REST API Service" "1.0", none, none⟩, db)

/-- routes.py lines 130-139: `check_content_type`. Returns none when the
request passes, otherwise the 415 abort response. Mirrors the Python
`if content_type and content_type == media_type` truthiness check: a
missing header or any non-matching string aborts. -/
def check_content_type (contentType : Option String) (mediaType : String) :
    Option Response :=
  match contentType with
  | some ct =>
      if ct ≠ "" ∧ ct = mediaType then none
      else some ⟨415, Body.empty, some ("Content-Type must be " ++ mediaType), none⟩
  | none => some ⟨415, Body.empty, some ("Content-Type must be " ++ mediaType), none⟩

/-- routes.py lines 41-58: `create_accounts`. Checks the content type,
deserializes the body (a validation error surfaces as 400), persists,
and answers 201 with the serialized account and the Location header the
code sets, the literal placeholder "/". -/
def create_accounts (db : Store) (contentType : Option String)
    (p : AccountPayload) (today : String) : Response × Store :=
  match check_content_type contentType "application/json" with
  | some err => (err, db)
  | none =>
      match deserialize p today with
      | Except.error _ => (⟨400, Body.empty, none, none⟩, db)
      | Except.ok f =>
          match Account.create db f with
          | (a, db2) => (⟨201, Body.obj a.serialize, none, some "/"⟩, db2)

/-- routes.py lines 65-74: `list_accounts` serializes every row. -/
def list_accounts (db : Store) : Response × Store :=
  (⟨200, Body.arr (db.map Account.serialize), none, none⟩, db)

/-- routes.py lines 81-91: `read_account`. On a miss it aborts 404 with
the message naming the id; on a hit it answers 200 with the serialized
account. -/
def read_account (db : Store) (id : Nat) : Response × Store :=
  match Account.find db id with
  | some a => (⟨200, Body.obj a.serialize, none, none⟩, db)
  | none =>
      (⟨404, Body.empty,
        some ("Account with id " ++ toString id ++ " could not be found :("),
        none⟩, db)

/-- routes.py lines 98-110: `update_accounts`. On a miss it calls
`abort(status_code)` with no description, so the 404 carries no custom
message; on a hit it deserializes the body into the row (validation
errors surface as 400), persists, and answers 200 with the updated
serialized account. -/
def update_accounts (db : Store) (id : Nat) (p : AccountPayload)
    (today : String) : Response × Store :=
  match Account.find db id with
  | none => (⟨404, Body.empty, none, none⟩, db)
  | some a =>
      match deserialize p today with
      | Except.error _ => (⟨400, Body.empty, none, none⟩, db)
      | Except.ok f =>
          (⟨200, Body.obj (Account.serialize ⟨a.id, f⟩), none, none⟩,
            Account.update db ⟨a.id, f⟩)

/-- routes.py lines 117-123: `delete_account`. Deletes when found,
always answers 204 with an empty body. -/
def delete_account (db : Store) (id : Nat) : Response × Store :=
  match Account.find db id with
  | some a => (⟨204, Body.empty, none, none⟩, Account.delete db a.id)
  | none => (⟨204, Body.empty, none, none⟩, db)

/-- The string `m` mentions the decimal representation of `id` as a
substring. -/
def mentionsId (m : String) (id : Nat) : Prop :=
  ∃ pre post : List Char, m.data = pre ++ (toString id).data ++ post

/-- The response carries a human-readable message naming `id`. -/
def responseNamesId (r : Response) (id : Nat) : Prop :=
  ∃ s, r.message = some s ∧ mentionsId s id

/-- The string `loc` references the account resource with the given id,
i.e. contains "/accounts/id" as a substring. -/
def referencesAccount (loc : String) (id : Nat) : Prop :=
  ∃ pre post : List Char,
    loc.data = pre ++ ("/accounts/" ++ toString id).data ++ post

/-- Creating a batch of accounts with the JSON content type, threading
the store, as the test helper `_create_accounts` does. -/
def createMany (today : String) (db : Store) : List AccountPayload → Store
  | [] => db
  | p :: ps => createMany today (create_accounts db (some "application/json") p today).2 ps

theorem id_le_maxId {db : Store} {a : Account} (h : a ∈ db) : a.id ≤ maxId db := by
  induction db with
  | nil => cases h
  | cons b bs ih =>
      rcases List.mem_cons.mp h with hb | hb
      · subst hb; exact le_max_left _ _
      · exact le_trans (ih hb) (le_max_right _ _)

theorem find_nextId_none (db : Store) : Account.find db (nextId db) = none := by
  unfold Account.find
  rw [List.find?_eq_none]
  intro a ha hfalse
  have h1 : a.id = nextId db := by simpa using hfalse
  have h2 : a.id ≤ maxId db := id_le_maxId ha
  simp [nextId] at h1
  omega

theorem find_append_singleton {db : Store} {a : Account}
    (h : Account.find db a.id = none) : Account.find (db ++ [a]) a.id = some a := by
  unfold Account.find at h ⊢
  rw [List.find?_append, h]
  simp [List.find?]

theorem deserialize_ok_inv {p : AccountPayload} {today : String} {f : AccountFields}
    (h : deserialize p today = Except.ok f) :
    ∃ n e a ph, p.name = some n ∧ p.email = some e ∧ p.address = some a ∧
      p.phone_number = some ph ∧
      f = ⟨n.toStr, e.toStr, a.toStr, ph.toStr,
        (match p.date_joined with
         | some d => d.toStr
         | none => today)⟩ := by
  unfold deserialize at h
  rcases hn : p.name with _ | n <;> rcases he : p.email with _ | e <;>
    rcases ha : p.address with _ | a <;> rcases hp : p.phone_number with _ | ph <;>
    rw [hn, he, ha, hp] at h <;> simp at h
  exact ⟨n, e, a, ph, rfl, rfl, rfl, rfl, h.symm⟩

theorem deserialize_err_of_missing {p : AccountPayload} {today : String}
    (h : p.name = none ∨ p.email = none ∨ p.address = none ∨ p.phone_number = none) :
    deserialize p today = Except.error () := by
  unfold deserialize
  rcases hn : p.name with _ | n <;> rcases he : p.email with _ | e <;>
    rcases ha : p.address with _ | a <;> rcases hp : p.phone_number with _ | ph <;>
    simp_all

theorem check_content_type_none_iff (ct : Option String) :
    check_content_type ct "application/json" = none ↔ ct = some "application/json" := by
  rcases ct with _ | s
  · simp [check_content_type]
  · by_cases hs : s = "application/json" <;> simp [check_content_type, hs]

theorem create_ct_fail {db : Store} {ct : Option String} {p : AccountPayload}
    {today : String} (h : ct ≠ some "application/json") :
    create_accounts db ct p today =
      (⟨415, Body.empty, some "Content-Type must be application/json", none⟩, db) := by
  unfold create_accounts
  rcases ct with _ | s
  · rfl
  · have hs : s ≠ "application/json" := by intro heq; exact h (by rw [heq])
    simp [check_content_type, hs]

theorem create_body_fail {db : Store} {p : AccountPayload} {today : String}
    (h : deserialize p today = Except.error ()) :
    create_accounts db (some "application/json") p today =
      (⟨400, Body.empty, none, none⟩, db) := by
  unfold create_accounts
  rw [show check_content_type (some "application/json") "application/json" = none from
    (check_content_type_none_iff _).mpr rfl]
  rw [h]

theorem create_ok {db : Store} {p : AccountPayload} {today : String} {f : AccountFields}
    (h : deserialize p today = Except.ok f) :
    create_accounts db (some "application/json") p today =
      (⟨201, Body.obj (Account.serialize ⟨nextId db, f⟩), none, some "/"⟩,
        db ++ [⟨nextId db, f⟩]) := by
  unfold create_accounts
  rw [show check_content_type (some "application/json") "application/json" = none from
    (check_content_type_none_iff _).mpr rfl]
  rw [h]
  rfl

theorem createMany_length {today : String} {ps : List AccountPayload}
    (h : ∀ p ∈ ps, ∃ f, deserialize p today = Except.ok f) :
    ∀ db : Store, (createMany today db ps).length = db.length + ps.length := by
  induction ps with
  | nil => intro db; simp [createMany]
  | cons q qs ih =>
      intro db
      obtain ⟨f, hf⟩ := h q (List.mem_cons_self q qs)
      have hrec := ih (fun p hp => h p (List.mem_cons_of_mem q hp)) (db ++ [⟨nextId db, f⟩])
      have hstep : createMany today db (q :: qs) =
          createMany today (db ++ [⟨nextId db, f⟩]) qs := by
        simp [createMany, create_ok hf]
      rw [hstep, hrec]
      simp only [List.length_append, List.length_cons, List.length_nil]
      omega

/-- A request body with every field absent. -/
def emptyPayload : AccountPayload := ⟨none, none, none, none, none⟩

/-- The example request body from the spec. -/
def samplePayload : AccountPayload :=
  ⟨some (JField.jstr "Rofrano"), some (JField.jstr "rofrano@example.com"),
    some (JField.jstr "123 Main St"), some (JField.jstr "555-1234"),
    some (JField.jstr "2022-01-01")⟩

/-- Claim C1, as stated, is false: on an absent id the PUT handler calls
abort with no description, so its 404 response carries no message naming
the missing id. Concretely, updating id 5 on the empty store answers 404
with no message at all. -/
theorem C1_put_message_counterexample :
    (update_accounts [] 5 emptyPayload "2022-01-01").1.status = 404 ∧
    ¬ responseNamesId (update_accounts [] 5 emptyPayload "2022-01-01").1 5 := by
  constructor
  · rfl
  · rintro ⟨s, hs, -⟩
    have hmsg : (update_accounts [] 5 emptyPayload "2022-01-01").1.message = none := rfl
    rw [hmsg] at hs
    cases hs

/-- Claim C1 (amended): for every absent id, GET /accounts/id answers
404 with a human-readable message naming the missing id, and PUT
/accounts/id answers 404, but with no custom message (so none naming the
id). -/
theorem C1_not_found_responses (db : Store) (id : Nat) (p : AccountPayload)
    (today : String) (h : Account.find db id = none) :
    (read_account db id).1.status = 404 ∧
    responseNamesId (read_account db id).1 id ∧
    (update_accounts db id p today).1.status = 404 ∧
    (update_accounts db id p today).1.message = none := by
  unfold read_account update_accounts
  rw [h]
  refine ⟨rfl, ?_, rfl, rfl⟩
  refine ⟨_, rfl, "Account with id ".data, " could not be found :(".data, ?_⟩
  simp [String.data_append]

/-- Claim C1 witness: the amended statement at the empty store and
id 5. -/
theorem C1_not_found_responses_witness :
    (read_account [] 5).1.status = 404 ∧
    responseNamesId (read_account [] 5).1 5 ∧
    (update_accounts [] 5 emptyPayload "2022-01-01").1.status = 404 ∧
    (update_accounts [] 5 emptyPayload "2022-01-01").1.message = none :=
  C1_not_found_responses [] 5 emptyPayload "2022-01-01" rfl

/-- Claim C2, as stated, is false: the Location header the code sets is
the literal placeholder "/", which does not reference the created
resource. Concretely, creating the spec's example account on the empty
store assigns id 1 and answers 201, but the Location value "/" does not
contain "/accounts/1". -/
theorem C2_location_counterexample :
    (create_accounts [] (some "application/json") samplePayload "2022-01-01").1.status
      = 201 ∧
    (create_accounts [] (some "application/json") samplePayload "2022-01-01").1.location
      = some "/" ∧
    ¬ ∃ s, (create_accounts []
          (some "application/json") samplePayload "2022-01-01").1.location = some s ∧
        referencesAccount s 1 := by
  refine ⟨rfl, rfl, ?_⟩
  rintro ⟨s, hs, pre, post, hdata⟩
  have hloc : (create_accounts []
      (some "application/json") samplePayload "2022-01-01").1.location = some "/" := rfl
  rw [hloc] at hs
  cases hs
  have hlen := congrArg List.length hdata
  simp [String.data_append] at hlen
  omega

/-- Claim C2 (amended): for every valid Account payload sent with
Content-Type application/json, POST /accounts assigns the fresh id,
persists the record at the end of the store, and returns the full
serialized Account with status 201 and a Location header whose value is
the fixed placeholder "/" (not a reference to the created resource). -/
theorem C2_create_success (db : Store) (p : AccountPayload) (today : String)
    (f : AccountFields) (h : deserialize p today = Except.ok f) :
    (create_accounts db (some "application/json") p today).1.status = 201 ∧
    (create_accounts db (some "application/json") p today).1.body
      = Body.obj (Account.serialize ⟨nextId db, f⟩) ∧
    (create_accounts db (some "application/json") p today).1.location = some "/" ∧
    (create_accounts db (some "application/json") p today).2
      = db ++ [⟨nextId db, f⟩] := by
  rw [create_ok h]
  exact ⟨rfl, rfl, rfl, rfl⟩

/-- Claim C2 witness: the amended statement at the empty store with the
spec's example payload. -/
theorem C2_create_success_witness :
    (create_accounts [] (some "application/json") samplePayload "2022-01-01").1.status
      = 201 ∧
    (create_accounts [] (some "application/json") samplePayload "2022-01-01").1.body
      = Body.obj (Account.serialize
          ⟨nextId [],
            ⟨"Rofrano", "rofrano@example.com", "123 Main St", "555-1234",
              "2022-01-01"⟩⟩) ∧
    (create_accounts []
        (some "application/json") samplePayload "2022-01-01").1.location = some "/" ∧
    (create_accounts [] (some "application/json") samplePayload "2022-01-01").2
      = [] ++ [⟨nextId [],
          ⟨"Rofrano", "rofrano@example.com", "123 Main St", "555-1234",
            "2022-01-01"⟩⟩] :=
  C2_create_success [] samplePayload "2022-01-01"
    ⟨"Rofrano", "rofrano@example.com", "123 Main St", "555-1234", "2022-01-01"⟩ rfl

/-- Claim C3: POST /accounts answers 415 whenever the Content-Type
header is not exactly application/json, regardless of the body, and
answers 400 when the content type is right but a required field (name,
email, address or phone_number) is missing from the body. -/
theorem C3_create_rejections (db : Store) (ct : Option String) (p : AccountPayload)
    (today : String) :
    (ct ≠ some "application/json" →
      (create_accounts db ct p today).1.status = 415) ∧
    (p.name = none ∨ p.email = none ∨ p.address = none ∨ p.phone_number = none →
      (create_accounts db (some "application/json") p today).1.status = 400) := by
  constructor
  · intro hct
    rw [create_ct_fail hct]
  · intro hmiss
    rw [create_body_fail (deserialize_err_of_missing hmiss)]

/-- Claim C3 witness: a wrong content type with a valid body is a 415,
and the right content type with an empty body is a 400. -/
theorem C3_create_rejections_witness :
    (create_accounts [] (some "text/html") samplePayload "2022-01-01").1.status = 415 ∧
    (create_accounts []
        (some "application/json") emptyPayload "2022-01-01").1.status = 400 :=
  ⟨(C3_create_rejections [] (some "text/html") samplePayload "2022-01-01").1
      (by simp),
    (C3_create_rejections [] (some "application/json") emptyPayload "2022-01-01").2
      (Or.inl rfl)⟩

/-- The fields of the spec's example account. -/
def sampleFields : AccountFields :=
  ⟨"Rofrano", "rofrano@example.com", "123 Main St", "555-1234", "2022-01-01"⟩

/-- An update body in the style of the spec's example: new name and a
numeric phone_number. -/
def updatePayload : AccountPayload :=
  ⟨some (JField.jstr "Jeronimo"), some (JField.jstr "jeronimo@example.com"),
    some (JField.jstr "456 Oak Ave"), some (JField.jnum 42),
    some (JField.jstr "2023-05-05")⟩

/-- The fields the update body above deserializes to: the numeric
phone_number comes back as the string "42". -/
def updatedFields : AccountFields :=
  ⟨"Jeronimo", "jeronimo@example.com", "456 Oak Ave", "42", "2023-05-05"⟩

theorem check_content_type_some_status {ct : Option String} {mt : String}
    {r : Response} (h : check_content_type ct mt = some r) : r.status = 415 := by
  rcases ct with _ | s
  · simp only [check_content_type] at h
    injection h with h2
    rw [← h2]
  · simp only [check_content_type] at h
    by_cases hs : s ≠ "" ∧ s = mt
    · rw [if_pos hs] at h; cases h
    · rw [if_neg hs] at h
      injection h with h2
      rw [← h2]

/-- Claim C4: PUT /accounts/id on an existing id overwrites all mutable
fields from the body, persists, and answers 200 with exactly the new
field values, a numeric phone_number input serializing back as its
string representation; on a nonexistent id it answers 404. -/
theorem C4_update_semantics (db : Store) (id : Nat) (p : AccountPayload)
    (today : String) :
    (Account.find db id = none → (update_accounts db id p today).1.status = 404) ∧
    (∀ a f, Account.find db id = some a → deserialize p today = Except.ok f →
      (update_accounts db id p today).1.status = 200 ∧
      (update_accounts db id p today).1.body
        = Body.obj (Account.serialize ⟨a.id, f⟩) ∧
      (update_accounts db id p today).2 = Account.update db ⟨a.id, f⟩) ∧
    (∀ f k, deserialize p today = Except.ok f →
      p.phone_number = some (JField.jnum k) → f.phone_number = toString k) := by
  refine ⟨?_, ?_, ?_⟩
  · intro h
    unfold update_accounts
    rw [h]
  · intro a f ha hf
    unfold update_accounts
    rw [ha, hf]
    exact ⟨rfl, rfl, rfl⟩
  · intro f k hf hk
    obtain ⟨n, e, ad, ph, -, -, -, hph, hfe⟩ := deserialize_ok_inv hf
    rw [hk] at hph
    obtain rfl : ph = JField.jnum k := by
      injection hph with h2
      exact h2.symm
    rw [hfe]
    rfl

/-- Claim C4 witness: updating the one existing account with the
Jeronimo body answers 200 with the new values and phone_number "42";
updating id 7 on the empty store answers 404. -/
theorem C4_update_semantics_witness :
    (update_accounts [⟨1, sampleFields⟩] 1 updatePayload "2023-05-05").1.status
      = 200 ∧
    (update_accounts [⟨1, sampleFields⟩] 1 updatePayload "2023-05-05").1.body
      = Body.obj (Account.serialize ⟨1, updatedFields⟩) ∧
    (update_accounts [⟨1, sampleFields⟩] 1 updatePayload "2023-05-05").2
      = Account.update [⟨1, sampleFields⟩] ⟨1, updatedFields⟩ ∧
    updatedFields.phone_number = toString (42 : Int) ∧
    (update_accounts [] 7 updatePayload "2023-05-05").1.status = 404 := by
  obtain ⟨-, hok, hph⟩ :=
    C4_update_semantics [⟨1, sampleFields⟩] 1 updatePayload "2023-05-05"
  obtain ⟨h1, h2, h3⟩ := hok ⟨1, sampleFields⟩ updatedFields (by decide) rfl
  exact ⟨h1, h2, h3, hph updatedFields 42 rfl rfl,
    (C4_update_semantics [] 7 updatePayload "2023-05-05").1 rfl⟩

/-- Claim C5: DELETE /accounts/id always answers 204 with an empty body,
deleting the same id twice answers 204 both times, and deleting a
nonexistent id leaves the store unchanged. -/
theorem C5_delete_idempotent (db : Store) (id : Nat) :
    (delete_account db id).1.status = 204 ∧
    (delete_account db id).1.body = Body.empty ∧
    (delete_account (delete_account db id).2 id).1.status = 204 ∧
    (delete_account (delete_account db id).2 id).1.body = Body.empty ∧
    (Account.find db id = none → (delete_account db id).2 = db) := by
  have hall : ∀ d : Store,
      (delete_account d id).1.status = 204 ∧ (delete_account d id).1.body = Body.empty := by
    intro d
    unfold delete_account
    cases h : Account.find d id <;> exact ⟨rfl, rfl⟩
  refine ⟨(hall db).1, (hall db).2, (hall _).1, (hall _).2, ?_⟩
  intro h
  unfold delete_account
  rw [h]

/-- Claim C5 witness: on the empty store, deleting id 3 twice answers
204 with empty bodies and changes nothing. -/
theorem C5_delete_idempotent_witness :
    (delete_account [] 3).1.status = 204 ∧
    (delete_account [] 3).1.body = Body.empty ∧
    (delete_account (delete_account [] 3).2 3).1.status = 204 ∧
    (delete_account (delete_account [] 3).2 3).1.body = Body.empty ∧
    (delete_account [] 3).2 = [] := by
  obtain ⟨h1, h2, h3, h4, h5⟩ := C5_delete_idempotent [] 3
  exact ⟨h1, h2, h3, h4, h5 rfl⟩

/-- Claim C6: creating a valid payload and then reading the returned id
answers 200 with a record equal to the deserialized input on every
field, under the newly assigned id, which is positive and was absent
before the create. -/
theorem C6_create_then_read (db : Store) (p : AccountPayload) (today : String)
    (f : AccountFields) (h : deserialize p today = Except.ok f) :
    0 < nextId db ∧
    Account.find db (nextId db) = none ∧
    (create_accounts db (some "application/json") p today).1.body
      = Body.obj (Account.serialize ⟨nextId db, f⟩) ∧
    (read_account (create_accounts db (some "application/json") p today).2
        (nextId db)).1.status = 200 ∧
    (read_account (create_accounts db (some "application/json") p today).2
        (nextId db)).1.body = Body.obj (Account.serialize ⟨nextId db, f⟩) := by
  have hfresh : Account.find db (nextId db) = none := find_nextId_none db
  have hread : Account.find (db ++ [⟨nextId db, f⟩]) (nextId db) = some ⟨nextId db, f⟩ :=
    find_append_singleton hfresh
  have hpair := @create_ok db p today f h
  have hstore : (create_accounts db (some "application/json") p today).2
      = db ++ [⟨nextId db, f⟩] := by rw [hpair]
  have hbody : (create_accounts db (some "application/json") p today).1.body
      = Body.obj (Account.serialize ⟨nextId db, f⟩) := by rw [hpair]
  refine ⟨Nat.succ_pos _, hfresh, hbody, ?_, ?_⟩ <;>
    rw [hstore] <;> unfold read_account <;> rw [hread]

/-- Claim C6 witness: create-then-read of the spec's example payload on
the empty store. -/
theorem C6_create_then_read_witness :
    0 < nextId [] ∧
    Account.find [] (nextId []) = none ∧
    (create_accounts []
        (some "application/json") samplePayload "2022-01-01").1.body
      = Body.obj (Account.serialize ⟨nextId [], sampleFields⟩) ∧
    (read_account (create_accounts []
        (some "application/json") samplePayload "2022-01-01").2
        (nextId [])).1.status = 200 ∧
    (read_account (create_accounts []
        (some "application/json") samplePayload "2022-01-01").2
        (nextId [])).1.body = Body.obj (Account.serialize ⟨nextId [], sampleFields⟩) :=
  C6_create_then_read [] samplePayload "2022-01-01" sampleFields rfl

/-- Claim C7: GET /accounts answers 200 with every persisted account
serialized in order and does not change the store; on the empty store
the sequence is empty, and after creating N valid accounts it has
exactly N elements. -/
theorem C7_list_accounts_spec (db : Store) (ps : List AccountPayload)
    (today : String)
    (h : ∀ p ∈ ps, ∃ f, deserialize p today = Except.ok f) :
    (list_accounts db).1.status = 200 ∧
    (list_accounts db).1.body = Body.arr (db.map Account.serialize) ∧
    (list_accounts db).2 = db ∧
    (list_accounts []).1.body = Body.arr [] ∧
    ∃ l, (list_accounts (createMany today [] ps)).1.body = Body.arr l ∧
      l.length = ps.length := by
  refine ⟨rfl, rfl, rfl, rfl,
    (createMany today [] ps).map Account.serialize, rfl, ?_⟩
  rw [List.length_map]
  simpa using createMany_length h []

/-- Claim C7 witness: the empty store lists as the empty sequence, and
creating two accounts lists exactly two elements. -/
theorem C7_list_accounts_spec_witness :
    (list_accounts []).1.status = 200 ∧
    (list_accounts []).1.body = Body.arr (([] : Store).map Account.serialize) ∧
    (list_accounts []).2 = [] ∧
    (list_accounts []).1.body = Body.arr [] ∧
    ∃ l, (list_accounts
        (createMany "2022-01-01" [] [samplePayload, samplePayload])).1.body
          = Body.arr l ∧
      l.length = 2 := by
  have hvalid : ∀ p ∈ [samplePayload, samplePayload],
      ∃ f, deserialize p "2022-01-01" = Except.ok f := by
    intro p hp
    rcases List.mem_cons.mp hp with rfl | hp2
    · exact ⟨sampleFields, rfl⟩
    · rcases List.mem_cons.mp hp2 with rfl | hp3
      · exact ⟨sampleFields, rfl⟩
      · cases hp3
  exact C7_list_accounts_spec [] [samplePayload, samplePayload] "2022-01-01" hvalid

/-- Claim C8: for every persisted state, GET /health answers 200 with
the fixed status-OK payload and GET / answers 200 with the fixed service
name and version, and neither changes the store. -/
theorem C8_health_index_fixed (db : Store) :
    health db = (⟨200, Body.statusOk, none, none⟩, db) ∧
    index db = (⟨200, Body.meta "Account REST API Service" "1.0", none, none⟩, db) :=
  ⟨rfl, rfl⟩

/-- Claim C9: the content-type check passes exactly when the header is
the literal string application/json; every rejection is a 415, and in
particular a missing header and the parameterized media type
application/json; charset=utf-8 are rejected. -/
theorem C9_content_type_exact_match (ct : Option String) :
    (check_content_type ct "application/json" = none
      ↔ ct = some "application/json") ∧
    (∀ r, check_content_type ct "application/json" = some r → r.status = 415) ∧
    check_content_type none "application/json" ≠ none ∧
    check_content_type (some "application/json; charset=utf-8")
      "application/json" ≠ none := by
  refine ⟨check_content_type_none_iff ct,
    fun r hr => check_content_type_some_status hr, ?_, ?_⟩
  · intro hn
    cases (check_content_type_none_iff none).mp hn
  · intro hn
    exact absurd ((check_content_type_none_iff _).mp hn) (by decide)

/-- Claim C9 witness: the check rejects the content type text/html with
status 415. -/
theorem C9_content_type_exact_match_witness :
    (⟨415, Body.empty, some "Content-Type must be application/json", none⟩
      : Response).status = 415 :=
  (C9_content_type_exact_match (some "text/html")).2.1 _ (by decide)

/-- Claim C10: POST /accounts is atomic on error: whenever it answers
415 or 400, the persisted store is unchanged. -/
theorem C10_create_atomic_on_error (db : Store) (ct : Option String)
    (p : AccountPayload) (today : String)
    (h : (create_accounts db ct p today).1.status = 415 ∨
      (create_accounts db ct p today).1.status = 400) :
    (create_accounts db ct p today).2 = db := by
  by_cases hct : ct = some "application/json"
  · subst hct
    cases hde : deserialize p today with
    | error e =>
        cases e
        rw [create_body_fail hde]
    | ok f =>
        rw [@create_ok db p today f hde] at h
        rcases h with h | h <;> simp at h
  · rw [create_ct_fail hct]

/-- Claim C10 witness: a create rejected for its content type leaves the
empty store empty. -/
theorem C10_create_atomic_on_error_witness :
    (create_accounts [] (some "text/html") samplePayload "2022-01-01").2 = [] :=
  C10_create_atomic_on_error [] (some "text/html") samplePayload "2022-01-01"
    (Or.inl (by decide))

end AcctSvc
